import Mathlib

/-!
# Verification of the TDH engine core against its specification

Shallow embedding of the engine prototype's core components:

* `FixScorer` (src/core/scorer.py): weight validation and the five
  sub-scores combined into a weighted total with a pass verdict.
* `LLMStateMachine` (src/core/llm_state_machine.py): the per-agent
  workflow driver, its transition history and compiled result.
* `LLMCouncil.assign_vulnerability` (src/core/llm_council.py): the
  shared-deadline fan-out and the per-agent result map.
* `EnhancedLLMCouncil._generate_comparative_report`
  (src/core/llm_council_enhanced.py): the comparative report.
* `GitWorktreeManager` (src/core/git_worktree_manager.py): branch
  naming, worktree directories and the LLM context window.

Python numbers are modelled as `ℚ` (every constant appearing in the
scorer is a small decimal, so the rational model is exact up to
float rounding noise far below any threshold involved), Python
strings as `String`, Python dicts that the claims inspect as
association lists or structures with the source's field names.
Calls into external libraries (radon's cyclomatic-complexity
visitor, the `ast` import extractor) and into external services
(the LLM itself, git, the filesystem clock) are modelled as explicit
input parameters of the embedded functions; everything else is
translated line by line from the source.
-/

namespace TDH

/-! ## String helpers shared by the embedded components -/

/-- Splitting a character list at every occurrence of a separator
character, accumulating the current piece in reverse. -/
def splitChar (sep : Char) : List Char → List Char → List String
  | [], acc => [⟨acc.reverse⟩]
  | c :: rest, acc =>
    if c = sep then ⟨acc.reverse⟩ :: splitChar sep rest []
    else splitChar sep rest (c :: acc)

/-- Python `str.split('\n')`. -/
def splitNL (s : String) : List String := splitChar '\n' s.data []

/-- Python `str.splitlines()` for `\n`-separated text: like
`split('\n')` but without a trailing empty element, and `[]` on the
empty string. -/
def splitlines (s : String) : List String :=
  let l := splitNL s
  if l.getLast? = some "" then l.dropLast else l

/-- Occurrence of a needle at any position of a haystack. -/
def containsSubAux (needle : List Char) : List Char → Bool
  | [] => needle.isEmpty
  | c :: rest => needle.isPrefixOf (c :: rest) || containsSubAux needle rest

/-- Python `needle in haystack` (substring containment). -/
def containsSub (haystack needle : String) : Bool :=
  containsSubAux needle.data haystack.data

/-- Python `str.startswith`. -/
def startsWithS (s stem : String) : Bool := stem.data.isPrefixOf s.data

/-- A regex `\s` / `str.strip` whitespace character. -/
def isPySpace (c : Char) : Bool :=
  c = ' ' || c = '\t' || c = '\n' || c = '\r' || c = '\x0b' || c = '\x0c'

/-- Python `str.lstrip()`. -/
def lstrip (s : String) : String := ⟨s.data.dropWhile isPySpace⟩

/-- A word character in the sense of Python's regex `\b` boundary
(`[A-Za-z0-9_]`; the inputs at stake are ASCII). -/
def isWordChar (c : Char) : Bool := c.isAlphanum || c = '_'

/-! ## Fix Scorer (src/core/scorer.py) -/

/-- The five scoring weights (`FixScorer.__init__`'s weight dict;
the claims only involve weight dicts over exactly these five
criteria, which is also the only shape `score`'s total loop can
consume without a KeyError). -/
structure Weights where
  complexity : ℚ
  dependencies : ℚ
  loc_delta : ℚ
  test_coverage : ℚ
  beauty : ℚ
deriving DecidableEq, Repr

/-- Python `sum(self.weights.values())`. -/
def Weights.sum (w : Weights) : ℚ :=
  w.complexity + w.dependencies + w.loc_delta + w.test_coverage + w.beauty

/-- The default weights of `FixScorer.__init__`. -/
def defaultWeights : Weights :=
  { complexity := 25/100, dependencies := 20/100, loc_delta := 15/100
    test_coverage := 25/100, beauty := 15/100 }

/-- Embeds `FixScorer.__init__`: take the given weights (default if none)
and raise `ValueError` unless they sum to 1.0 within 0.001. -/
def mkFixScorer (weights : Option Weights) : Except String Weights :=
  let ws := weights.getD defaultWeights
  if 1/1000 < |ws.sum - 1| then
    .error ("Weights must sum to 1.0, got " ++ reprStr ws.sum)
  else
    .ok ws

/-- Embeds `FixScorer._score_complexity`'s threshold table, applied to the
average cyclomatic complexity reported by the external analyzer
(radon for Python, lizard otherwise); the analyzer's value is an
input of the embedding. -/
def scoreOfComplexity (avg_complexity : ℚ) : ℚ :=
  if avg_complexity ≤ 5 then 100
  else if avg_complexity ≤ 10 then 80
  else if avg_complexity ≤ 15 then 60
  else if avg_complexity ≤ 20 then 40
  else 20

/-- The `heavy_libs` table of `FixScorer._score_dependencies`
(`heavy_libs.get(language, [])`). -/
def heavyLibs (language : String) : List String :=
  if language = "python" then ["tensorflow", "torch", "pandas", "numpy", "scipy"]
  else if language = "c" then ["windows.h", "mach/mach.h", "complex.h"]
  else if language = "cpp" then ["boost", "qt", "wx", "opencv2"]
  else []

/-- Embeds `FixScorer._score_dependencies`, taking the two import sets (the
results of the external `ast`/regex extractors, each a duplicate-free
list) as inputs: new imports are those of the fix absent from the
original; each (new import, heavy library) pair with the library name
occurring in the lowercased import bumps the heavy count. -/
def scoreDependencies (fix_imports original_imports : List String)
    (language : String) : ℚ :=
  let new_imports := (fix_imports.filter (fun i => !original_imports.contains i)).dedup
  let heavy_count := new_imports.foldl
    (fun acc imp => acc + ((heavyLibs language).filter
      (fun h => containsSub imp.toLower h)).length) 0
  if new_imports.length = 0 then 100
  else if new_imports.length ≤ 2 ∧ heavy_count = 0 then 80
  else if new_imports.length ≤ 5 ∧ heavy_count = 0 then 60
  else if new_imports.length ≤ 10 then 40
  else 20

/-- Embeds `FixScorer._score_loc_delta`: `abs` of the difference of the
`splitlines` counts, mapped through the threshold table. -/
def scoreLocDelta (fix_code original_code : String) : ℚ :=
  let fix_lines := (splitlines fix_code).length
  let original_lines := (splitlines original_code).length
  let delta := max fix_lines original_lines - min fix_lines original_lines
  if delta ≤ 5 then 100
  else if delta ≤ 10 then 80
  else if delta ≤ 20 then 60
  else if delta ≤ 50 then 40
  else 20

/-- The `test_indicators` table of `FixScorer._score_test_coverage`
(`.get(language, test_indicators['python'])`). -/
def testIndicators (language : String) : List String :=
  if language = "c" then ["assert(", "TEST(", "CHECK(", "CU_ASSERT"]
  else if language = "cpp" then ["assert(", "TEST(", "BOOST_TEST", "CHECK("]
  else if language = "java" then ["assert ", "@Test", "JUnit", "Assert."]
  else ["assert ", "unittest", "pytest", "def test_"]

/-- Embeds `FixScorer._score_test_coverage`: count the `split('\n')` lines
containing an indicator, divide by the `splitlines` count, map
through the density thresholds (0 when the code has no lines). -/
def scoreTestCoverage (code : String) (language : String) : ℚ :=
  let indicators := testIndicators language
  let count := ((splitNL code).filter
    (fun line => indicators.any (fun ind => containsSub line ind))).length
  let lines := (splitlines code).length
  if lines = 0 then 0
  else
    let test_density : ℚ := (count : ℚ) / (lines : ℚ)
    if 10/100 ≤ test_density then 100
    else if 5/100 ≤ test_density then 80
    else if 2/100 ≤ test_density then 60
    else if 1/100 ≤ test_density then 40
    else 20

/-- Start of a Python identifier as matched by the source's variable
regex `[a-z_]`. -/
def isLowerStart (c : Char) : Bool := ('a' ≤ c && c ≤ 'z') || c = '_'

/-- Continuation of that regex's identifier body `[a-z0-9_]`. -/
def isIdentChar (c : Char) : Bool := isLowerStart c || c.isDigit

/-- Counter for `re.findall(r'\b\d+\b', code)`: maximal digit runs
whose neighbours on both sides are word boundaries. The fold carries
(whether a digit run is open, whether that run started at a left
boundary, whether the previous character was a word character). -/
def countMagicAux : List Char → Bool → Bool → Bool → Nat
  | [], inRun, okStart, _ => if inRun && okStart then 1 else 0
  | c :: rest, inRun, okStart, prevWord =>
    if c.isDigit then
      if inRun then countMagicAux rest true okStart true
      else countMagicAux rest true (!prevWord) true
    else
      (if inRun && okStart && !isWordChar c then 1 else 0) +
        countMagicAux rest false false (isWordChar c)

/-- The number of magic-number matches in `FixScorer._score_beauty`. -/
def countMagicNumbers (code : String) : Nat :=
  countMagicAux code.data false false false

/-- Scanner for `re.findall(r'\b([a-z_][a-z0-9_]*)\s*=', code)`: at a
left word boundary starting `[a-z_]`, the (necessarily maximal) ident
run, optional whitespace and a literal `=` give a match. Scanning one
character at a time is equivalent to the regex engine's resume-after-
match behaviour because no new match can begin strictly inside a
matched span (its characters are identifier characters preceded by
word characters, whitespace, or the final `=`). -/
def findVarsAux : List Char → Bool → List (List Char)
  | [], _ => []
  | c :: rest, prevWord =>
    let tailMatches := findVarsAux rest (isWordChar c)
    if isLowerStart c && !prevWord then
      let after := ((c :: rest).dropWhile isIdentChar).dropWhile isPySpace
      if after.head? = some '=' then
        ((c :: rest).takeWhile isIdentChar) :: tailMatches
      else tailMatches
    else tailMatches

/-- The variable names matched by `_score_beauty`'s regex. -/
def findVars (code : String) : List String :=
  (findVarsAux code.data false).map (fun l => ⟨l⟩)

/-- Python `sum(1 for v in variable names if len(v) > 2 and '_' in v)`. -/
def descriptiveCount (varNames : List String) : Nat :=
  (varNames.filter (fun v => v.length > 2 && containsSub v "_")).length

/-- Embeds `FixScorer._calculate_nesting_depth`, Python branch: bump the
depth on a keyword-opening stripped line, reset it on any other
non-empty stripped line (the source's dedent test compares against
leading whitespace already removed by `lstrip`, so it reduces to
non-emptiness), and track the running maximum. -/
def nestingDepthPython (code : String) : Nat :=
  let step := fun (st : Nat × Nat) (line : String) =>
    let stripped := lstrip line
    let current_depth :=
      if startsWithS stripped "if " || startsWithS stripped "for " ||
         startsWithS stripped "while " || startsWithS stripped "def " ||
         startsWithS stripped "class " || startsWithS stripped "with " then
        st.1 + 1
      else if stripped ≠ "" && !startsWithS stripped " " && !startsWithS stripped "\t" then 0
      else st.1
    (current_depth, max st.2 current_depth)
  ((splitNL code).foldl step (0, 0)).2

/-- The bracket sets of `_calculate_nesting_depth`'s non-Python
branch (curly braces written via their code points). -/
def openBrackets : List Char := [Char.ofNat 123, '[', '(']

/-- Closing counterparts of `openBrackets`. -/
def closeBrackets : List Char := [Char.ofNat 125, ']', ')']

/-- Embeds `_calculate_nesting_depth`, non-Python branch: bracket counting
with a running maximum (the depth may go negative on unbalanced
input, as in the source). -/
def nestingDepthBraces (code : String) : Nat :=
  let step := fun (st : Int × Int) (c : Char) =>
    if openBrackets.contains c then (st.1 + 1, max st.2 (st.1 + 1))
    else if closeBrackets.contains c then (st.1 - 1, st.2)
    else st
  ((code.data.foldl step (0, 0)).2).toNat

/-- Embeds `FixScorer._calculate_nesting_depth`. -/
def calculateNestingDepth (code : String) (language : String) : Nat :=
  if language = "python" then nestingDepthPython code
  else nestingDepthBraces code

/-- The total long-line penalty of `_score_beauty`'s first loop
(−5 per line over 100 characters, −2 per line over 80). -/
def longLinePenalty (lines : List String) : Nat :=
  lines.foldl
    (fun acc line =>
      if line.length > 100 then acc + 5
      else if line.length > 80 then acc + 2
      else acc) 0

/-- Embeds `_score_beauty`'s nesting-depth penalty table. -/
def nestingPenalty (nesting_depth : Nat) : Nat :=
  if nesting_depth > 4 then 20
  else if nesting_depth > 3 then 10
  else if nesting_depth > 2 then 5
  else 0

/-- Embeds `_score_beauty`'s magic-number penalty table. -/
def magicPenalty (magic_numbers : Nat) : Nat :=
  if magic_numbers > 5 then 10
  else if magic_numbers > 3 then 5
  else 0

/-- Embeds `FixScorer._score_beauty`: start from 100, subtract the
long-line, nesting and magic-number penalties (the source's
sequential `beauty -= ...` updates), add the Python
descriptive-name bonus, clamp to [0, 100]. -/
def scoreBeauty (code : String) (language : String) : ℚ :=
  let base : ℚ := 100 - (longLinePenalty (splitNL code) : ℚ)
    - (nestingPenalty (calculateNestingDepth code language) : ℚ)
    - (magicPenalty (countMagicNumbers code) : ℚ)
  let withBonus :=
    if language = "python" then
      let varNames := findVars code
      if varNames.length ≠ 0 then
        base + ((descriptiveCount varNames : ℚ) / (varNames.length : ℚ)) * 10
      else base
    else base
  max 0 (min 100 withBonus)

/-- One `FixScorer.score` result: the weighted total, the five
sub-scores of the breakdown, and the verdict `total >= 70.0`. -/
structure ScoreResult where
  total : ℚ
  complexity : ℚ
  dependencies : ℚ
  loc_delta : ℚ
  test_coverage : ℚ
  beauty : ℚ
  passed : Bool
deriving DecidableEq, Repr

/-- Embeds `FixScorer.score`. The average complexity reported by the
external analyzer and the two import sets produced by the external
extractors are inputs; everything else is computed as in the source.
-/
def score (w : Weights) (avg_complexity : ℚ)
    (fix_imports original_imports : List String)
    (fix_code original_code : String) (language : String) : ScoreResult :=
  let complexity_score := scoreOfComplexity avg_complexity
  let dependencies_score := scoreDependencies fix_imports original_imports language
  let loc_delta_score := scoreLocDelta fix_code original_code
  let test_coverage_score := scoreTestCoverage fix_code language
  let beauty_score := scoreBeauty fix_code language
  let total_score :=
    complexity_score * w.complexity + dependencies_score * w.dependencies +
    loc_delta_score * w.loc_delta + test_coverage_score * w.test_coverage +
    beauty_score * w.beauty
  { total := total_score
    complexity := complexity_score
    dependencies := dependencies_score
    loc_delta := loc_delta_score
    test_coverage := test_coverage_score
    beauty := beauty_score
    passed := decide ((70 : ℚ) ≤ total_score) }

/-! ## Agent workflow state machine (src/core/llm_state_machine.py)

The driver `execute_workflow` runs the stages in sequence inside one
`try`; the only stage whose body can raise is `_state_analyzing`
(the test-design, fix-design, documentation and council stages are
unimplemented `pass` bodies in this source). `_state_analyzing`'s
fallible operations — the worktree context call and the LLM call —
and the success of the JSON-parsing chain are modelled as explicit
inputs (`AnalyzeEffects`). Timestamps prefixing error strings are an
input `ts`; the elapsed duration is an input `dur`. -/

/-- The states `LLMState` (the `Enum` of the source). -/
inductive LLMState where
  | IDLE
  | ANALYZING
  | TEST_DESIGNING
  | FIX_DESIGNING
  | DOCUMENTING
  | WAITING_COUNCIL
  | COUNCIL_DISCUSSING
  | FINISHED
  | ERROR
deriving DecidableEq, Repr

/-- The SAST vulnerability record handed to the workflow (the dict
keys the state machine and worktree manager read, each optional as
`dict.get` makes them). -/
structure Vulnerability where
  rule_id : Option String := none
  severity : Option String := none
  confidence : Option String := none
  file : Option String := none
  line : Option Int := none
  message : Option String := none
  cwe : Option String := none
  owasp : Option String := none
deriving DecidableEq, Repr

/-- The analysis artifact stored by `_state_analyzing`: either the
parsed JSON reply (abstracted by the reply text it was parsed from)
or the degraded fallback record, which keeps the first 500
characters of the raw reply. -/
inductive AnalysisResult where
  | structured (reply : String)
  | degraded (raw_response : String)
deriving DecidableEq, Repr

/-- Embeds `LLMStateContext`. -/
structure LLMStateContext where
  vulnerability : Vulnerability
  worktree_dir : String
  current_file : String
  analysis_result : Option AnalysisResult := none
  test_design : Option String := none
  fix_code : Option String := none
  documentation : Option String := none
  council_feedback : Option (List String) := none
  errors : List String := []
deriving DecidableEq, Repr

/-- Embeds `LLMStateContext.add_error`: append the timestamped message. -/
def LLMStateContext.add_error (ctx : LLMStateContext) (ts e : String) :
    LLMStateContext :=
  { ctx with errors := ctx.errors ++ [ts ++ ": " ++ e] }

deriving instance DecidableEq for Except

/-- Outcomes of the external operations `_state_analyzing` performs:
the `prepare_llm_context` call, the LLM call, and whether the JSON
parsing chain succeeds on the reply. -/
structure AnalyzeEffects where
  prepareContext : Except String Unit
  llmResponse : Except String String
  parseOk : Bool
deriving DecidableEq, Repr

/-- Embeds `_state_analyzing`: on a context/LLM failure, record
"Error en análisis: ..." in the context and re-raise; otherwise
store the parsed artifact (degrading to the annotated fallback on a
non-JSON reply). Returns the updated context and the re-raised
exception text, if any. -/
def stateAnalyzing (eff : AnalyzeEffects) (ts : String)
    (ctx : LLMStateContext) : LLMStateContext × Option String :=
  match eff.prepareContext with
  | .error e => (ctx.add_error ts ("Error en análisis: " ++ e), some e)
  | .ok _ =>
    match eff.llmResponse with
    | .error e => (ctx.add_error ts ("Error en análisis: " ++ e), some e)
    | .ok reply =>
      let analysis_result :=
        if eff.parseOk then AnalysisResult.structured reply
        else AnalysisResult.degraded ⟨reply.data.take 500⟩
      ({ ctx with analysis_result := some analysis_result }, none)

/-- One `state_history` entry (`_transition_to`; the timestamp of
the entry is logging metadata and is elided). -/
structure StateTransition where
  src : LLMState
  dst : LLMState
deriving DecidableEq, Repr

/-- A tagged value of the result dict `_compile_results` builds.
`hist` is the shape a transition-history value would have; the
compiler never produces it. -/
inductive RVal where
  | str (s : String)
  | vuln (v : Vulnerability)
  | analysis (a : Option AnalysisResult)
  | art (a : Option String)
  | errs (l : List String)
  | dur (seconds : Nat)
  | hist (h : List StateTransition)
deriving DecidableEq, Repr

/-- Whether an `RVal` is a transition-history value. -/
def RVal.isHist : RVal → Bool
  | .hist _ => true
  | _ => false

/-- Embeds `_compile_results`: the result dict, in the source's key order.
-/
def compileResults (llm_name branch_name : String)
    (ctx : LLMStateContext) (duration_seconds : Nat) :
    List (String × RVal) :=
  [("llm_name", .str llm_name),
   ("branch", .str branch_name),
   ("vulnerability", .vuln ctx.vulnerability),
   ("analysis", .analysis ctx.analysis_result),
   ("test_design", .art ctx.test_design),
   ("fix", .art ctx.fix_code),
   ("documentation", .art ctx.documentation),
   ("errors", .errs ctx.errors),
   ("duration_seconds", .dur duration_seconds)]

/-- Everything observable about one `execute_workflow` run. -/
structure RunOutcome where
  finalState : LLMState
  history : List StateTransition
  ctx : LLMStateContext
  result : List (String × RVal)
deriving DecidableEq, Repr

/-- Embeds `execute_workflow`: build the fresh context, transition through
the stages in order inside the `try`; an exception from a stage adds
"Error en workflow: ..." and transitions to `ERROR`; then compile
the result. `hasCouncil` mirrors `if self.council:`. -/
def executeWorkflow (llm_name : String) (hasCouncil : Bool)
    (eff : AnalyzeEffects) (vulnerability : Vulnerability)
    (worktree_dir branch_name : String) (ts : String)
    (dur : Nat) : RunOutcome :=
  let ctx0 : LLMStateContext :=
    { vulnerability := vulnerability
      worktree_dir := worktree_dir
      current_file := vulnerability.file.getD "unknown" }
  let h1 : List StateTransition := [⟨.IDLE, .ANALYZING⟩]
  let (ctx1, raised) := stateAnalyzing eff ts ctx0
  match raised with
  | some e =>
    let ctx2 := ctx1.add_error ts ("Error en workflow: " ++ e)
    { finalState := .ERROR
      history := h1 ++ [⟨.ANALYZING, .ERROR⟩]
      ctx := ctx2
      result := compileResults llm_name branch_name ctx2 dur }
  | none =>
    -- the remaining stage bodies are `pass` in the source and can
    -- neither raise nor write an artifact
    let h2 := h1 ++ [⟨.ANALYZING, .TEST_DESIGNING⟩,
                     ⟨.TEST_DESIGNING, .FIX_DESIGNING⟩,
                     ⟨.FIX_DESIGNING, .DOCUMENTING⟩]
    let h3 :=
      if hasCouncil then
        h2 ++ [⟨.DOCUMENTING, .WAITING_COUNCIL⟩,
               ⟨.WAITING_COUNCIL, .COUNCIL_DISCUSSING⟩,
               ⟨.COUNCIL_DISCUSSING, .FINISHED⟩]
      else h2 ++ [⟨.DOCUMENTING, .FINISHED⟩]
    { finalState := .FINISHED
      history := h3
      ctx := ctx1
      result := compileResults llm_name branch_name ctx1 dur }

/-- Whether `_state_analyzing` raises under the given effects. -/
def analyzeRaises (eff : AnalyzeEffects) : Bool :=
  match eff.prepareContext, eff.llmResponse with
  | .error _, _ => true
  | .ok _, .error _ => true
  | .ok _, .ok _ => false

/-! ## Council fan-out (src/core/llm_council.py, assign_vulnerability)

`assign_vulnerability` launches one fix task per selected LLM and
waits with `asyncio.wait_for(asyncio.gather(...), timeout)` where
`timeout = timeout_per_llm * len(selected_llms)`. One selected
agent's task is modelled by the (virtual) time at which it would
complete and the outcome it would complete with; `wait_for` raises
exactly when some task is still unfinished at the deadline, and the
source's handler then replaces the whole result list by
`[Exception("Timeout")] * len(selected_llms)`. -/

/-- The council settings the fan-out reads. -/
structure CouncilSettings where
  timeout_per_llm : Nat := 120
deriving DecidableEq, Repr

/-- A selected agent's task: its name, the time its
`_generate_fix_with_retry` task would complete, and the outcome it
would complete with (`.ok` file map or `.error` exception text). -/
structure AgentTask where
  name : String
  completionTime : Nat
  outcome : Except String (List (String × String))
deriving DecidableEq, Repr

/-- The shared deadline `timeout_per_llm * len(selected_llms)`. -/
def globalDeadline (s : CouncilSettings) (agentCount : Nat) : Nat :=
  s.timeout_per_llm * agentCount

/-- The `results` list after the `wait_for`/`gather` block: each
task's own outcome if all complete by the deadline, otherwise the
uniform `Exception("Timeout")` list of the `except` handler. -/
def gatherWithDeadline (s : CouncilSettings) (selected : List AgentTask) :
    List (Except String (List (String × String))) :=
  if selected.any (fun a => globalDeadline s selected.length < a.completionTime) then
    selected.map (fun _ => .error "Timeout")
  else
    selected.map (·.outcome)

/-- One entry of the per-agent result map. -/
structure FixResult where
  success : Bool
  error : Option String
  fixed_files : List (String × String)
deriving DecidableEq, Repr

/-- The result-processing loop of `assign_vulnerability`. -/
def processOutcome : Except String (List (String × String)) → FixResult
  | .error e => { success := false, error := some e, fixed_files := [] }
  | .ok files => { success := true, error := none, fixed_files := files }

/-- Embeds `assign_vulnerability`'s final per-agent result map
(`zip(selected_llms, results)` processed into `final_results`). -/
def assignVulnerability (s : CouncilSettings) (selected : List AgentTask) :
    List (String × FixResult) :=
  (selected.zip (gatherWithDeadline s selected)).map
    (fun p => (p.1.name, processOutcome p.2))

/-! ## Comparative report
(src/core/llm_council_enhanced.py, _generate_comparative_report) -/

/-- One entry of the orchestration `results` dict as the report
reads it: the success flag, the error and git fields, and the
truthiness of the artifact fields the report summarizes. -/
structure OrchestrationEntry where
  success : Bool
  error : Option String := none
  branch : Option String := none
  worktree_dir : Option String := none
  pr_url : Option String := none
  commit : Option String := none
  duration_seconds : Option Nat := none
  has_test : Bool := false
  has_fix : Bool := false
  has_documentation : Bool := false
deriving DecidableEq, Repr

/-- One entry of the report's `solutions` dict. -/
inductive ReportEntry where
  | success (branch worktree_dir pr_url commit : Option String)
      (duration_seconds : Option Nat)
      (has_test has_fix has_documentation : Bool)
  | failed (error : Option String) (worktree_dir : Option String)
deriving DecidableEq, Repr

/-- The report's `summary` block (`success_rate` kept as the exact
rational the source formats to one decimal). -/
structure ReportSummary where
  total_llms : Nat
  successful : Nat
  failed : Nat
  success_rate : ℚ
deriving DecidableEq, Repr

/-- The report's `comparative_analysis` block. -/
inductive ComparativeAnalysis where
  | multiple (solutionCount : Nat)
  | single (solutionBy : String)
  | allFailed
deriving DecidableEq, Repr

/-- The whole comparative report. -/
structure ComparativeReport where
  vulnerability_id : String
  summary : ReportSummary
  solutions : List (String × ReportEntry)
  comparative_analysis : ComparativeAnalysis
  recommendations : List String
deriving DecidableEq, Repr

/-- The report entry built for a successful solution. -/
def successEntry (e : OrchestrationEntry) : ReportEntry :=
  .success e.branch e.worktree_dir e.pr_url e.commit e.duration_seconds
    e.has_test e.has_fix e.has_documentation

/-- The report entry built for a failed solution. -/
def failedEntry (e : OrchestrationEntry) : ReportEntry :=
  .failed e.error e.worktree_dir

/-- Embeds `_generate_comparative_report`. -/
def generateComparativeReport (vulnerability_id : String)
    (results : List (String × OrchestrationEntry)) : ComparativeReport :=
  let successful := results.filter (fun r => r.2.success)
  let failed := results.filter (fun r => !r.2.success)
  let success_rate : ℚ :=
    if results.length = 0 then 0
    else (successful.length : ℚ) / (results.length : ℚ) * 100
  let solutions :=
    successful.map (fun r => (r.1, successEntry r.2)) ++
    failed.map (fun r => (r.1, failedEntry r.2))
  let comparative_analysis :=
    if successful.length > 1 then
      ComparativeAnalysis.multiple successful.length
    else if successful.length = 1 then
      ComparativeAnalysis.single ((successful.head?.map Prod.fst).getD "")
    else ComparativeAnalysis.allFailed
  let recommendations :=
    if successful.length ≥ 2 then
      ["1. Revisar todas las PRs generadas para comparar diferentes enfoques",
       "2. Considerar combinar elementos de múltiples soluciones",
       "3. Ejecutar tests de seguridad en cada branch antes de merge",
       "4. Realizar revisión de código por humano experto en seguridad"]
    else if successful.length = 1 then
      ["1. Revisar la PR generada y validar el fix",
       "2. Ejecutar tests de seguridad específicos para esta vulnerabilidad",
       "3. Considerar revisión por otro experto antes de merge"]
    else
      ["1. Revisión manual necesaria - los LLMs no pudieron generar solución",
       "2. Analizar manualmente la vulnerabilidad y diseñar fix",
       "3. Considerar si la vulnerabilidad es un falso positivo"]
  { vulnerability_id := vulnerability_id
    summary :=
      { total_llms := results.length
        successful := successful.length
        failed := failed.length
        success_rate := success_rate }
    solutions := solutions
    comparative_analysis := comparative_analysis
    recommendations := recommendations }

/-! ## Worktree manager (src/core/git_worktree_manager.py) -/

/-- The issue-id sanitizer of `create_worktree_for_llm`:
`"".join(c for c in issue_id if c.isalnum() or c in '-_')`. -/
def sanitizeIssueId (issue_id : String) : String :=
  ⟨issue_id.data.filter (fun c => c.isAlphanum || c = '-' || c = '_')⟩

/-- The branch name of `create_worktree_for_llm`:
`f"tdh-fix/{safe_issue_id}-by-{llm_name}"`. -/
def branchNameFor (issue_id llm_name : String) : String :=
  "tdh-fix/" ++ sanitizeIssueId issue_id ++ "-by-" ++ llm_name

/-- A worktree directory as `tempfile.mkdtemp` yields it: the
requested name stem `f"tdh_{llm_name}_{timestamp}_"` plus the random
suffix `mkdtemp` appends; the OS guarantees the suffix makes the
path fresh, so two calls never receive the same suffix token. -/
structure WorktreeDir where
  stem : String
  token : Nat
deriving DecidableEq, Repr

/-- Embeds `create_worktree_for_llm`'s observable output: the worktree
directory and the branch name (`timestamp` is the formatted
`datetime.now()` string, `token` the fresh `mkdtemp` suffix). -/
def createWorktreeForLLM (llm_name issue_id : String)
    (timestamp : String) (token : Nat) : WorktreeDir × String :=
  ({ stem := "tdh_" ++ llm_name ++ "_" ++ timestamp ++ "_", token := token },
   branchNameFor issue_id llm_name)

/-- The marked context window of `prepare_llm_context`: with
1-indexed `line_num` and the file's `split('\n')` lines, slice
`lines[max(0, line_num - 6) : min(len(lines), line_num + 4)]` and,
when `line_num` is a valid line, prepend the vulnerability marker to
the reported line and indentation to the others. -/
def vulnerableSection (file_content : String) (line_num : Nat) : List String :=
  let lines := splitNL file_content
  let start_line := line_num - 6
  let end_line := min lines.length (line_num + 4)
  let context_lines := (lines.drop start_line).take (end_line - start_line)
  if 1 ≤ line_num ∧ line_num ≤ lines.length then
    (List.enumFrom (start_line + 1) context_lines).map
      (fun p =>
        if p.1 = line_num then "👉 " ++ p.2 ++ "  <-- VULNERABLE"
        else "   " ++ p.2)
  else context_lines

/-! ## Scorer theorems -/

/-- The complexity sub-score is one of the table values in [0,100].
-/
theorem scoreOfComplexity_bounds (a : ℚ) :
    0 ≤ scoreOfComplexity a ∧ scoreOfComplexity a ≤ 100 := by
  unfold scoreOfComplexity
  split_ifs <;> norm_num

/-- The dependency sub-score is one of the table values in [0,100].
-/
theorem scoreDependencies_bounds (fi oi : List String) (lang : String) :
    0 ≤ scoreDependencies fi oi lang ∧ scoreDependencies fi oi lang ≤ 100 := by
  unfold scoreDependencies
  dsimp only
  split_ifs <;> norm_num

/-- The size-of-change sub-score is one of the table values in
[0,100]. -/
theorem scoreLocDelta_bounds (fix orig : String) :
    0 ≤ scoreLocDelta fix orig ∧ scoreLocDelta fix orig ≤ 100 := by
  unfold scoreLocDelta
  dsimp only
  split_ifs <;> norm_num

/-- The test-coverage sub-score is one of the table values (or 0) in
[0,100]. -/
theorem scoreTestCoverage_bounds (code lang : String) :
    0 ≤ scoreTestCoverage code lang ∧ scoreTestCoverage code lang ≤ 100 := by
  unfold scoreTestCoverage
  dsimp only
  split_ifs <;> norm_num

/-- The beauty sub-score is clamped into [0,100]. -/
theorem scoreBeauty_bounds (code lang : String) :
    0 ≤ scoreBeauty code lang ∧ scoreBeauty code lang ≤ 100 := by
  unfold scoreBeauty
  exact ⟨le_max_left 0 _, max_le (by norm_num) (min_le_left _ _)⟩

/-- Whether an `Except` result is a success. -/
def exceptIsOk {e a : Type} : Except e a → Bool
  | .ok _ => true
  | .error _ => false

/-- C8. Constructing a `FixScorer` with a weight set whose sum
differs from 1.0 by more than 0.001 raises `ValueError`;
construction with a weight set summing to 1.0 within that tolerance
succeeds (and keeps exactly the given weights). -/
theorem claim_C8_weight_validation (w : Weights) :
    (1/1000 < |w.sum - 1| → exceptIsOk (mkFixScorer (some w)) = false) ∧
    (|w.sum - 1| ≤ 1/1000 → mkFixScorer (some w) = .ok w) := by
  constructor
  · intro h
    unfold mkFixScorer
    simp only [Option.getD]
    rw [if_pos h]
    rfl
  · intro h
    unfold mkFixScorer
    simp only [Option.getD]
    rw [if_neg (not_lt.mpr h)]

/-- C8 witness: the all-one-half weight set is rejected and the
default weight set is accepted. -/
theorem claim_C8_weight_validation_witness :
    exceptIsOk (mkFixScorer (some ⟨1/2, 1/2, 1/2, 1/2, 1/2⟩)) = false ∧
    mkFixScorer (some defaultWeights) = .ok defaultWeights :=
  ⟨(claim_C8_weight_validation _).1 (by
      rw [show (⟨1/2, 1/2, 1/2, 1/2, 1/2⟩ : Weights).sum - 1 = 3/2 by
            norm_num [Weights.sum],
          abs_of_pos (by norm_num : (0:ℚ) < 3/2)]
      norm_num),
   (claim_C8_weight_validation _).2 (by
      have h0 : defaultWeights.sum - 1 = 0 := by norm_num [Weights.sum, defaultWeights]
      rw [h0]
      norm_num)⟩

/-- C9. For a weight set summing to 1.0, any two scorers constructed
from it produce identical results (same sub-scores, total and
verdict) on identical candidate, original and language: `score` is a
pure function of its inputs in this embedding, so the two
invocations agree definitionally once the two constructed scorers
are shown equal. -/
theorem claim_C9_deterministic (weights : Option Weights) (s1 s2 : Weights)
    (hsum : (weights.getD defaultWeights).sum = 1)
    (h1 : mkFixScorer weights = .ok s1) (h2 : mkFixScorer weights = .ok s2)
    (avg_complexity : ℚ) (fix_imports original_imports : List String)
    (fix_code original_code language : String) :
    score s1 avg_complexity fix_imports original_imports fix_code original_code language =
    score s2 avg_complexity fix_imports original_imports fix_code original_code language := by
  rw [h1] at h2
  rw [Except.ok.inj h2]

/-- C9 witness at the default weights and a concrete input. -/
theorem claim_C9_deterministic_witness :
    score defaultWeights 1 [] [] "x_val = 1" "y_val = 2" "python" =
    score defaultWeights 1 [] [] "x_val = 1" "y_val = 2" "python" := by
  have hok : mkFixScorer (some defaultWeights) = .ok defaultWeights := by
    unfold mkFixScorer
    simp only [Option.getD]
    rw [if_neg (not_lt.mpr (by norm_num [Weights.sum, defaultWeights]))]
  exact claim_C9_deterministic (some defaultWeights) defaultWeights defaultWeights
    (by norm_num [Weights.sum, defaultWeights]) hok hok 1 [] [] "x_val = 1" "y_val = 2" "python"

/-- C10. Every sub-score of `score` lies in [0,100], and for
non-negative weights summing to 1 the weighted total lies in [0,100]
as well. -/
theorem claim_C10_score_bounds (w : Weights) (avg_complexity : ℚ)
    (fix_imports original_imports : List String)
    (fix_code original_code language : String)
    (hc : 0 ≤ w.complexity) (hd : 0 ≤ w.dependencies)
    (hl : 0 ≤ w.loc_delta) (ht : 0 ≤ w.test_coverage) (hb : 0 ≤ w.beauty)
    (hsum : w.sum = 1) :
    let r := score w avg_complexity fix_imports original_imports
      fix_code original_code language
    (0 ≤ r.complexity ∧ r.complexity ≤ 100) ∧
    (0 ≤ r.dependencies ∧ r.dependencies ≤ 100) ∧
    (0 ≤ r.loc_delta ∧ r.loc_delta ≤ 100) ∧
    (0 ≤ r.test_coverage ∧ r.test_coverage ≤ 100) ∧
    (0 ≤ r.beauty ∧ r.beauty ≤ 100) ∧
    (0 ≤ r.total ∧ r.total ≤ 100) := by
  intro r
  have h1 := scoreOfComplexity_bounds avg_complexity
  have h2 := scoreDependencies_bounds fix_imports original_imports language
  have h3 := scoreLocDelta_bounds fix_code original_code
  have h4 := scoreTestCoverage_bounds fix_code language
  have h5 := scoreBeauty_bounds fix_code language
  have etot : r.total =
      scoreOfComplexity avg_complexity * w.complexity +
      scoreDependencies fix_imports original_imports language * w.dependencies +
      scoreLocDelta fix_code original_code * w.loc_delta +
      scoreTestCoverage fix_code language * w.test_coverage +
      scoreBeauty fix_code language * w.beauty := rfl
  have hs : w.complexity + w.dependencies + w.loc_delta +
      w.test_coverage + w.beauty = 1 := hsum
  refine ⟨h1, h2, h3, h4, h5, ?_, ?_⟩
  · rw [etot]
    have q1 := mul_nonneg h1.1 hc
    have q2 := mul_nonneg h2.1 hd
    have q3 := mul_nonneg h3.1 hl
    have q4 := mul_nonneg h4.1 ht
    have q5 := mul_nonneg h5.1 hb
    linarith
  · rw [etot]
    have p1 := mul_le_mul_of_nonneg_right h1.2 hc
    have p2 := mul_le_mul_of_nonneg_right h2.2 hd
    have p3 := mul_le_mul_of_nonneg_right h3.2 hl
    have p4 := mul_le_mul_of_nonneg_right h4.2 ht
    have p5 := mul_le_mul_of_nonneg_right h5.2 hb
    linarith

/-- C10 witness at the default weights and a concrete input. -/
theorem claim_C10_score_bounds_witness :
    let r := score defaultWeights 3 ["os"] [] "import os\nx_val = 1" "x_val = 2" "python"
    (0 ≤ r.complexity ∧ r.complexity ≤ 100) ∧
    (0 ≤ r.dependencies ∧ r.dependencies ≤ 100) ∧
    (0 ≤ r.loc_delta ∧ r.loc_delta ≤ 100) ∧
    (0 ≤ r.test_coverage ∧ r.test_coverage ≤ 100) ∧
    (0 ≤ r.beauty ∧ r.beauty ≤ 100) ∧
    (0 ≤ r.total ∧ r.total ≤ 100) :=
  claim_C10_score_bounds defaultWeights 3 ["os"] [] "import os\nx_val = 1" "x_val = 2" "python"
    (by norm_num [defaultWeights]) (by norm_num [defaultWeights])
    (by norm_num [defaultWeights]) (by norm_num [defaultWeights])
    (by norm_num [defaultWeights]) (by norm_num [Weights.sum, defaultWeights])

/-! ## The worked scoring example (C3) -/

/-- The 6-line nested-if original of the spec's worked example (the
`__main__` block of scorer.py). -/
def originalNestedIf : String :=
  "\ndef bad_function(x):\n    if x > 0:\n        if x < 10:\n            if x % 2 == 0:\n                return True\n    return False\n"

/-- The 2-line boolean-expression candidate of that example. -/
def candidateBooleanReturn : String :=
  "\ndef good_function(x):\n    return 0 < x < 10 and x % 2 == 0\n"

/-- The scorer run of the worked example: default weights, language
python; radon reports average cyclomatic complexity 2 for the
candidate (one function, one boolean operator) and the `ast`
extractor finds no imports in either snippet. -/
def workedExampleResult : ScoreResult :=
  score defaultWeights 2 [] [] candidateBooleanReturn originalNestedIf "python"

/-- The candidate's beauty score: no long lines, nesting depth 1,
four magic numbers (−5), no assigned variables (no bonus), so
100 − 5 = 95. -/
theorem workedExample_beauty : scoreBeauty candidateBooleanReturn "python" = 95 := by
  have h1 : longLinePenalty (splitNL candidateBooleanReturn) = 0 := rfl
  have h2 : calculateNestingDepth candidateBooleanReturn "python" = 1 := rfl
  have h3 : countMagicNumbers candidateBooleanReturn = 4 := rfl
  have h4 : findVars candidateBooleanReturn = [] := rfl
  simp only [scoreBeauty, h1, h2, h3, h4, nestingPenalty, magicPenalty]
  norm_num

/-- The candidate's test-coverage score: no indicator lines over 3
`splitlines` lines, density 0, score 20. -/
theorem workedExample_coverage :
    scoreTestCoverage candidateBooleanReturn "python" = 20 := by
  have hcount : ((splitNL candidateBooleanReturn).filter
      (fun line => (testIndicators "python").any
        (fun ind => containsSub line ind))).length = 0 := rfl
  have hlines : (splitlines candidateBooleanReturn).length = 3 := rfl
  simp only [scoreTestCoverage, hcount, hlines]
  norm_num

/-- The example's weighted total, exactly:
100·0.25 + 100·0.20 + 100·0.15 + 20·0.25 + 95·0.15 = 79.25. -/
theorem workedExample_total : workedExampleResult.total = 317/4 := by
  have e : workedExampleResult.total =
      scoreOfComplexity 2 * defaultWeights.complexity +
      scoreDependencies [] [] "python" * defaultWeights.dependencies +
      scoreLocDelta candidateBooleanReturn originalNestedIf * defaultWeights.loc_delta +
      scoreTestCoverage candidateBooleanReturn "python" * defaultWeights.test_coverage +
      scoreBeauty candidateBooleanReturn "python" * defaultWeights.beauty := rfl
  rw [e, workedExample_beauty, workedExample_coverage,
    show scoreOfComplexity 2 = 100 by norm_num [scoreOfComplexity],
    show scoreDependencies [] [] "python" = 100 from rfl,
    show scoreLocDelta candidateBooleanReturn originalNestedIf = 100 from rfl]
  norm_num [defaultWeights]

/-- C3 counterexample. The worked example's weighted total is
exactly 79.25, not approximately 91 (it is more than 11 points below
91, far outside any reading of "≈"): the claimed sub-scores are
themselves inconsistent with a total of 91 under the claimed
weights. -/
theorem claim_C3_total_not_91 :
    workedExampleResult.total = 317/4 ∧ workedExampleResult.total < 86 := by
  refine ⟨workedExample_total, ?_⟩
  rw [workedExample_total]
  norm_num

/-- C3 amended. Scoring the 2-line boolean-expression candidate
against the 6-line nested-if original with the default weights
yields sub-scores complexity 100, dependencies 100, loc_delta 100,
test_coverage 20 and beauty 95, a weighted total of exactly 79.25,
and a passing verdict. -/
theorem claim_C3_worked_example :
    workedExampleResult.complexity = 100 ∧
    workedExampleResult.dependencies = 100 ∧
    workedExampleResult.loc_delta = 100 ∧
    workedExampleResult.test_coverage = 20 ∧
    workedExampleResult.beauty = 95 ∧
    workedExampleResult.total = 317/4 ∧
    workedExampleResult.passed = true := by
  refine ⟨by norm_num [workedExampleResult, score, scoreOfComplexity], rfl, rfl,
    workedExample_coverage, workedExample_beauty, workedExample_total, ?_⟩
  have e : workedExampleResult.passed =
      decide ((70:ℚ) ≤ workedExampleResult.total) := rfl
  rw [e, workedExample_total]
  simp only [decide_eq_true_eq]
  norm_num

/-! ## State machine theorems (C2, C5) -/

/-- C2. Whenever the analysis stage's handler raises — the analysis
stage is the only fallible stage in this source, the later handlers
being unimplemented no-ops, so every failing run fails at stage
k = 1 — the workflow ends in the terminal ERROR state, no later
stage is entered (the transition history stops at
ANALYZING → ERROR), every stage artifact from stage k on is null in
the compiled result, and the error list is non-empty. -/
theorem claim_C2_error_halts_stages (llm_name : String) (hasCouncil : Bool)
    (eff : AnalyzeEffects) (vuln : Vulnerability)
    (worktree_dir branch_name ts : String) (dur : Nat)
    (hfail : analyzeRaises eff = true) :
    let o := executeWorkflow llm_name hasCouncil eff vuln worktree_dir branch_name ts dur
    o.finalState = .ERROR ∧
    o.history = [⟨.IDLE, .ANALYZING⟩, ⟨.ANALYZING, .ERROR⟩] ∧
    o.result.lookup "analysis" = some (.analysis none) ∧
    o.result.lookup "test_design" = some (.art none) ∧
    o.result.lookup "fix" = some (.art none) ∧
    o.result.lookup "documentation" = some (.art none) ∧
    o.ctx.errors ≠ [] := by
  intro o
  obtain ⟨pc, lr, po⟩ := eff
  cases pc with
  | error e =>
    simp [o, executeWorkflow, stateAnalyzing, compileResults,
      LLMStateContext.add_error, List.lookup]
  | ok u =>
    cases lr with
    | error e =>
      simp [o, executeWorkflow, stateAnalyzing, compileResults,
        LLMStateContext.add_error, List.lookup]
    | ok reply =>
      simp [analyzeRaises] at hfail

/-- C2 witness: a concrete run whose LLM call fails. -/
theorem claim_C2_error_halts_stages_witness :
    analyzeRaises ⟨.ok (), .error "boom", true⟩ = true ∧
    (executeWorkflow "agent-1" false ⟨.ok (), .error "boom", true⟩
      {} "wd" "branch-1" "t0" 5).finalState = .ERROR ∧
    (executeWorkflow "agent-1" false ⟨.ok (), .error "boom", true⟩
      {} "wd" "branch-1" "t0" 5).history =
      [⟨.IDLE, .ANALYZING⟩, ⟨.ANALYZING, .ERROR⟩] ∧
    (executeWorkflow "agent-1" false ⟨.ok (), .error "boom", true⟩
      {} "wd" "branch-1" "t0" 5).ctx.errors.length = 2 := by
  have h := claim_C2_error_halts_stages "agent-1" false ⟨.ok (), .error "boom", true⟩
    {} "wd" "branch-1" "t0" 5 rfl
  exact ⟨rfl, h.1, h.2.1, by decide⟩

/-- A fixed successful terminal run used to exhibit what the
compiled result does and does not contain. -/
def successfulRun : RunOutcome :=
  executeWorkflow "agent-1" true ⟨.ok (), .ok "reply", true⟩ {} "wd" "branch-1" "t0" 7

/-- C5 counterexample. A workflow that reaches a terminal state has
a transition history of seven entries, yet its compiled result
consists of exactly the nine keys of `_compile_results` — none of
which is a history key — and carries zero history-shaped values, so
the compiled result does not contain the transition history. -/
theorem claim_C5_result_lacks_history :
    successfulRun.finalState = .FINISHED ∧
    successfulRun.history.length = 7 ∧
    successfulRun.result.map Prod.fst =
      ["llm_name", "branch", "vulnerability", "analysis", "test_design",
       "fix", "documentation", "errors", "duration_seconds"] ∧
    (successfulRun.result.filter (fun kv => kv.2.isHist)).length = 0 := by
  refine ⟨rfl, by decide, by decide, by decide⟩

/-- C5 amended. Every workflow run reaches a terminal state
(FINISHED or ERROR) and its compiled result contains the agent
name, the branch, the vulnerability record, every stage artifact
(the context field, null whenever the stage was not reached), the
error list and the elapsed duration — but not the transition
history, which stays on the machine object only. -/
theorem claim_C5_compiled_result_fields (llm_name : String)
    (hasCouncil : Bool) (eff : AnalyzeEffects) (vuln : Vulnerability)
    (worktree_dir branch_name ts : String) (dur : Nat) :
    let o := executeWorkflow llm_name hasCouncil eff vuln worktree_dir branch_name ts dur
    (o.finalState = .FINISHED ∨ o.finalState = .ERROR) ∧
    o.result.lookup "llm_name" = some (.str llm_name) ∧
    o.result.lookup "branch" = some (.str branch_name) ∧
    o.result.lookup "vulnerability" = some (.vuln vuln) ∧
    o.result.lookup "analysis" = some (.analysis o.ctx.analysis_result) ∧
    o.result.lookup "test_design" = some (.art o.ctx.test_design) ∧
    o.result.lookup "fix" = some (.art o.ctx.fix_code) ∧
    o.result.lookup "documentation" = some (.art o.ctx.documentation) ∧
    o.result.lookup "errors" = some (.errs o.ctx.errors) ∧
    o.result.lookup "duration_seconds" = some (.dur dur) := by
  intro o
  obtain ⟨pc, lr, po⟩ := eff
  cases pc with
  | error e =>
    simp [o, executeWorkflow, stateAnalyzing, compileResults,
      LLMStateContext.add_error, List.lookup]
  | ok u =>
    cases lr with
    | error e =>
      simp [o, executeWorkflow, stateAnalyzing, compileResults,
      LLMStateContext.add_error, List.lookup]
    | ok reply =>
      simp [o, executeWorkflow, stateAnalyzing, compileResults,
      LLMStateContext.add_error, List.lookup]

/-! ## Council fan-out theorems (C1) -/

/-- A fast agent finishing well before the shared deadline with a
non-empty fix. -/
def agentFast : AgentTask := ⟨"fast-agent", 60, .ok [("src/app.py", "patched")]⟩

/-- A slow agent still unfinished at the shared deadline. -/
def agentSlow : AgentTask := ⟨"slow-agent", 500, .ok [("src/app.py", "other patch")]⟩

/-- C1 counterexample. With the default 120 s per-agent timeout and
two selected agents, the deadline is 240 s; the fast agent finishes
at 60 s with a completed fix while the slow one is unfinished at the
deadline — yet the result map records the *fast* agent as a timeout
failure too, because the `except asyncio.TimeoutError` handler
replaces the whole result list with `Exception("Timeout")` entries.
-/
theorem claim_C1_finished_agent_lost :
    globalDeadline ⟨120⟩ 2 = 240 ∧
    agentFast.completionTime ≤ 240 ∧
    240 < agentSlow.completionTime ∧
    (assignVulnerability ⟨120⟩ [agentFast, agentSlow]).lookup "fast-agent" =
      some { success := false, error := some "Timeout", fixed_files := [] } := by
  refine ⟨rfl, by decide, by decide, by decide⟩

/-- Auxiliary: mapping a function over a list zipped with its own
image. -/
theorem zip_map_self {α β γ : Type} (l : List α) (f : α → β) (g : α × β → γ) :
    (l.zip (l.map f)).map g = l.map (fun a => g (a, f a)) := by
  induction l with
  | nil => rfl
  | cons a t ih => simp [ih]

/-- C1 amended. The shared deadline equals the per-agent timeout
times the number of selected agents; when every selected agent
finishes by that deadline each one keeps its own outcome, but when
any selected agent is unfinished at the deadline *every* selected
agent — finished or not — is recorded as a timeout failure (the
timeout handler discards finished siblings' outcomes). -/
theorem claim_C1_deadline_and_timeout (s : CouncilSettings)
    (selected : List AgentTask) :
    globalDeadline s selected.length = s.timeout_per_llm * selected.length ∧
    ((∀ a ∈ selected, a.completionTime ≤ globalDeadline s selected.length) →
      assignVulnerability s selected =
        selected.map (fun a => (a.name, processOutcome a.outcome))) ∧
    ((∃ a ∈ selected, globalDeadline s selected.length < a.completionTime) →
      ∀ p ∈ assignVulnerability s selected,
        p.2 = { success := false, error := some "Timeout", fixed_files := [] }) := by
  refine ⟨rfl, ?_, ?_⟩
  · intro hall
    have hany : selected.any
        (fun a => decide (globalDeadline s selected.length < a.completionTime)) = false := by
      simp only [List.any_eq_false, decide_eq_true_eq]
      intro a ha
      exact not_lt.mpr (hall a ha)
    unfold assignVulnerability gatherWithDeadline
    rw [if_neg (by simp [hany])]
    exact zip_map_self selected AgentTask.outcome _
  · rintro ⟨a, ha, hlt⟩
    have hany : selected.any
        (fun a => decide (globalDeadline s selected.length < a.completionTime)) = true := by
      simp only [List.any_eq_true, decide_eq_true_eq]
      exact ⟨a, ha, hlt⟩
    intro p hp
    unfold assignVulnerability gatherWithDeadline at hp
    rw [if_pos (by simp [hany]), zip_map_self selected (fun _ => Except.error "Timeout")] at hp
    obtain ⟨b, hb, rfl⟩ := List.mem_map.mp hp
    rfl

/-- C1 amended witness: a lone agent finishing in time keeps its
outcome, and in the timed-out pair from the counterexample input
the first recorded entry is a timeout failure. -/
theorem claim_C1_deadline_and_timeout_witness :
    assignVulnerability ⟨120⟩ [⟨"solo", 10, .ok [("f.py", "fix")]⟩] =
      [("solo", { success := true, error := none, fixed_files := [("f.py", "fix")] })] ∧
    ((assignVulnerability ⟨120⟩ [agentFast, agentSlow]).get ⟨0, by decide⟩).2 =
      { success := false, error := some "Timeout", fixed_files := [] } := by
  constructor
  · have h := (claim_C1_deadline_and_timeout ⟨120⟩
      [⟨"solo", 10, .ok [("f.py", "fix")]⟩]).2.1 (by decide)
    simpa using h
  · exact (claim_C1_deadline_and_timeout ⟨120⟩ [agentFast, agentSlow]).2.2
      ⟨agentSlow, by decide, by decide⟩ _ (List.get_mem _ _ _)

/-! ## Comparative report theorems (C6) -/

/-- C6. The comparative report has one `solutions` entry per agent
(successful ones as success entries with their branch/commit/PR
data, failed ones with their error; none dropped), its success rate
is the successful fraction of all entries, and its recommendation
block is selected by the number of successes: a single-candidate
review when exactly one agent succeeded, a compare-the-N-solutions
analysis when more than one succeeded, and manual review when none
did. -/
theorem claim_C6_report_complete (vulnerability_id : String)
    (results : List (String × OrchestrationEntry)) :
    let r := generateComparativeReport vulnerability_id results
    let successCount := (results.filter (fun p => p.2.success)).length
    (r.solutions.map Prod.fst).Perm (results.map Prod.fst) ∧
    (∀ p ∈ results, p.2.success = true → (p.1, successEntry p.2) ∈ r.solutions) ∧
    (∀ p ∈ results, p.2.success = false → (p.1, failedEntry p.2) ∈ r.solutions) ∧
    (results ≠ [] → r.summary.success_rate =
      (successCount : ℚ) / (results.length : ℚ) * 100) ∧
    (successCount = 1 → ∃ n, r.comparative_analysis = .single n) ∧
    (1 < successCount → r.comparative_analysis = .multiple successCount) ∧
    (successCount = 0 → r.comparative_analysis = .allFailed ∧
      r.recommendations.head? =
        some "1. Revisión manual necesaria - los LLMs no pudieron generar solución") := by
  intro r successCount
  refine ⟨?_, ?_, ?_, ?_, ?_, ?_, ?_⟩
  · have hperm := (List.filter_append_perm (fun p => p.2.success) results).map Prod.fst
    simpa [r, generateComparativeReport, List.map_map, Function.comp] using hperm
  · intro p hp hs
    apply List.mem_append_left
    exact List.mem_map_of_mem _ (List.mem_filter.mpr ⟨hp, by simp [hs]⟩)
  · intro p hp hs
    apply List.mem_append_right
    exact List.mem_map_of_mem _ (List.mem_filter.mpr ⟨hp, by simp [hs]⟩)
  · intro hne
    simp [r, generateComparativeReport, successCount,
      List.length_eq_zero.not.mpr hne]
  all_goals
    have ea : r.comparative_analysis =
        (if (results.filter (fun p => p.2.success)).length > 1 then
          ComparativeAnalysis.multiple (results.filter (fun p => p.2.success)).length
        else if (results.filter (fun p => p.2.success)).length = 1 then
          ComparativeAnalysis.single
            ((((results.filter (fun p => p.2.success)).head?).map Prod.fst).getD "")
        else ComparativeAnalysis.allFailed) := rfl
  · intro h1
    rw [ea, if_neg (by omega), if_pos h1]
    exact ⟨_, rfl⟩
  · intro hgt
    rw [ea, if_pos hgt]
  · intro h0
    have er : r.recommendations =
        (if (results.filter (fun p => p.2.success)).length ≥ 2 then
          ["1. Revisar todas las PRs generadas para comparar diferentes enfoques",
           "2. Considerar combinar elementos de múltiples soluciones",
           "3. Ejecutar tests de seguridad en cada branch antes de merge",
           "4. Realizar revisión de código por humano experto en seguridad"]
        else if (results.filter (fun p => p.2.success)).length = 1 then
          ["1. Revisar la PR generada y validar el fix",
           "2. Ejecutar tests de seguridad específicos para esta vulnerabilidad",
           "3. Considerar revisión por otro experto antes de merge"]
        else
          ["1. Revisión manual necesaria - los LLMs no pudieron generar solución",
           "2. Analizar manualmente la vulnerabilidad y diseñar fix",
           "3. Considerar si la vulnerabilidad es un falso positivo"]) := rfl
    refine ⟨?_, ?_⟩
    · rw [ea, if_neg (by omega), if_neg (by omega)]
    · rw [er, if_neg (by omega), if_neg (by omega)]
      rfl

/-- C6 witness on a three-agent outcome with two successes and one
failure. -/
theorem claim_C6_report_complete_witness :
    let rs : List (String × OrchestrationEntry) :=
      [("a", { success := true, branch := some "b1" }),
       ("b", { success := false, error := some "boom" }),
       ("c", { success := true, branch := some "b3" })]
    let r := generateComparativeReport "VULN-1" rs
    ("b", failedEntry { success := false, error := some "boom" }) ∈ r.solutions ∧
    r.summary.success_rate = (2 : ℚ) / 3 * 100 ∧
    r.comparative_analysis = .multiple 2 := by
  intro rs r
  refine ⟨?_, ?_, ?_⟩
  · exact (claim_C6_report_complete "VULN-1" rs).2.2.1
      ("b", { success := false, error := some "boom" }) (by simp [rs]) rfl
  · have h := (claim_C6_report_complete "VULN-1" rs).2.2.2.1 (by simp [rs])
    simpa [rs] using h
  · exact (claim_C6_report_complete "VULN-1" rs).2.2.2.2.2.1 (by decide)

/-! ## Worktree manager theorems (C7, C4) -/

/-- Left-cancellation of string concatenation. -/
theorem string_append_left_cancel {p a b : String}
    (h : p ++ a = p ++ b) : a = b := by
  have h2 := congrArg String.data h
  simp [String.data_append] at h2
  exact String.ext h2

/-- C7. Two worktree creations for the same vulnerability by agents
with distinct names yield distinct branch names — each being exactly
`tdh-fix/{sanitized issue id}-by-{agent name}` — and, the `mkdtemp`
suffix tokens of two calls being necessarily distinct (the OS never
hands out an existing path), distinct worktree directories. -/
theorem claim_C7_unique_branch_and_dir (issue_id llm_a llm_b ts_a ts_b : String)
    (tok_a tok_b : Nat) (hname : llm_a ≠ llm_b) (htok : tok_a ≠ tok_b) :
    (createWorktreeForLLM llm_a issue_id ts_a tok_a).2 =
      "tdh-fix/" ++ sanitizeIssueId issue_id ++ "-by-" ++ llm_a ∧
    (createWorktreeForLLM llm_a issue_id ts_a tok_a).2 ≠
      (createWorktreeForLLM llm_b issue_id ts_b tok_b).2 ∧
    (createWorktreeForLLM llm_a issue_id ts_a tok_a).1 ≠
      (createWorktreeForLLM llm_b issue_id ts_b tok_b).1 := by
  refine ⟨rfl, ?_, ?_⟩
  · intro h
    apply hname
    have h2 : ("tdh-fix/" ++ sanitizeIssueId issue_id ++ "-by-") ++ llm_a =
        ("tdh-fix/" ++ sanitizeIssueId issue_id ++ "-by-") ++ llm_b := by
      simpa [createWorktreeForLLM, branchNameFor, String.append_assoc] using h
    exact string_append_left_cancel h2
  · intro h
    exact htok (congrArg WorktreeDir.token h)

/-- C7 witness at two concrete agents: the expected branch name,
and distinctness of both branches and directories stated as decided
equality tests. -/
theorem claim_C7_unique_branch_and_dir_witness :
    (createWorktreeForLLM "Claude-3.5-Sonnet" "B603" "20250101_000000" 0).2 =
      "tdh-fix/B603-by-Claude-3.5-Sonnet" ∧
    decide ((createWorktreeForLLM "Claude-3.5-Sonnet" "B603" "20250101_000000" 0).2 =
      (createWorktreeForLLM "GPT-4-Turbo" "B603" "20250101_000001" 1).2) = false ∧
    decide ((createWorktreeForLLM "Claude-3.5-Sonnet" "B603" "20250101_000000" 0).1 =
      (createWorktreeForLLM "GPT-4-Turbo" "B603" "20250101_000001" 1).1) = false := by
  have h := claim_C7_unique_branch_and_dir "B603" "Claude-3.5-Sonnet" "GPT-4-Turbo"
    "20250101_000000" "20250101_000001" 0 1 (by decide) (by decide)
  exact ⟨h.1, decide_eq_false h.2.1, decide_eq_false h.2.2⟩

/-- An eleven-line target file. -/
def elevenLineFile : String :=
  "L1\nL2\nL3\nL4\nL5\nL6\nL7\nL8\nL9\nL10\nL11"

/-- C4 (code bug): the context bundle around reported line 6 of an
eleven-line file. Both the spec and the source's own comments
(`# Contexto: 5 líneas antes y después`, `# +4 para incluir 5 líneas
después`) promise five lines after the reported line, i.e. lines
1–11 here; but `lines[max(0, line - 6) : min(len(lines), line + 4)]`
is exclusive at the right end, so the window stops at line 10 — only
four lines after the marked line. The marking of the offending line
itself behaves as claimed. -/
theorem claim_C4_window_is_four_after :
    vulnerableSection elevenLineFile 6 =
      ["   L1", "   L2", "   L3", "   L4", "   L5",
       "👉 L6  <-- VULNERABLE",
       "   L7", "   L8", "   L9", "   L10"] ∧
    (vulnerableSection elevenLineFile 6).length = 10 := ⟨rfl, rfl⟩

end TDH
